import Mathlib

/-!
Verification of the Mattermost channel plugin's core logic: the routing
engine (`shouldRespond`, session keys, mention handling), the session
orchestrator (`handlePostedEvent`), and the WebSocket transport client
(connection lifecycle, reconnect backoff, listener dispatch).

TypeScript strings are modelled as lists of characters; the module-level
mutable globals (config, bot identity) become explicit parameters; the
async collaborator calls (REST wrappers, AI inject) become oracle
functions returning `Except`, and every call the orchestrator makes is
recorded as an `Effect` in arrival order, so that theorems can speak
about which outbound operations happen and with which arguments.
-/

set_option linter.unusedVariables false

namespace WoprMattermost

/-- TypeScript strings, modelled as lists of characters. -/
abbrev Str := List Char

/-! ### Routing engine (src/index.ts) -/

/-- Source: `isDMChannel` — channel type "D" (direct) or "G" (group DM). -/
def isDMChannel (channelType : Str) : Bool :=
  channelType == "D".data || channelType == "G".data

/-- Source: `buildSessionKey` — template literals over the channel id. -/
def buildSessionKey (channelId : Str) (isDM : Bool) : Str :=
  if isDM then "mattermost-dm-".data ++ channelId
  else "mattermost-channel-".data ++ channelId

/-- JavaScript `String.prototype.includes`: substring occurrence test. -/
def includes (msg sub : Str) : Bool :=
  match msg with
  | [] => sub.isEmpty
  | c :: rest => sub.isPrefixOf (c :: rest) || includes rest sub

/-- Source line 253: `botUsername ? post.message.includes(&#x40;-username) : false`
(the empty username is falsy, so the substring rule is skipped). -/
def computeBotMentioned (botUsername message : Str) : Bool :=
  if botUsername.isEmpty then false
  else includes message ('@' :: botUsername)

/-- Case-insensitive match of a pattern against the head of a list;
returns the remainder on success.  Models one step of the
case-insensitive regex built from the bot username. -/
def ciStarts : Str → Str → Option Str
  | [], rest => some rest
  | _ :: _, [] => none
  | p :: ps, c :: cs => if p.toLower == c.toLower then ciStarts ps cs else none

/-- Source line 285: global case-insensitive replacement of
`"@" ++ botUsername` followed by a greedy whitespace run, with the empty
string — a left-to-right scan, exactly as the JS regex engine applies a
`gi` regex. -/
def replaceMentionAll (botUsername : Str) : Str → Str
  | [] => []
  | c :: cs =>
    match h : ciStarts ('@' :: botUsername) (c :: cs) with
    | some rest => replaceMentionAll botUsername (rest.dropWhile Char.isWhitespace)
    | none => c :: replaceMentionAll botUsername cs
termination_by l => l.length
decreasing_by
  · have key : ∀ (p l r : Str), ciStarts p l = some r →
        p.length + r.length = l.length := by
      intro p
      induction p with
      | nil => intro l r hk; simp [ciStarts] at hk; simp [hk]
      | cons a ps ih =>
        intro l r hk
        cases l with
        | nil => simp [ciStarts] at hk
        | cons d ds =>
          simp only [ciStarts] at hk
          by_cases hc : a.toLower == d.toLower
          · rw [if_pos hc] at hk
            have := ih ds r hk
            simp [List.length_cons]
            omega
          · rw [if_neg hc] at hk; exact absurd hk (by simp)
    have h1 := key _ _ _ h
    have h2 : (rest.dropWhile Char.isWhitespace).length ≤ rest.length :=
      ((List.dropWhile_suffix Char.isWhitespace).sublist).length_le
    simp [List.length_cons] at h1 ⊢
    omega
  · simp [List.length_cons]

/-- JavaScript `String.prototype.trim`: strip leading and trailing
whitespace. -/
def jsTrim (s : Str) : Str :=
  ((s.dropWhile Char.isWhitespace).reverse.dropWhile Char.isWhitespace).reverse

/-- Source lines 283–286: the mention-stripping step.  When the bot
username is empty (falsy) the body is left untouched; otherwise every
case-insensitive occurrence of the mention token plus trailing
whitespace is removed and the result trimmed. -/
def stripMention (botUsername message : Str) : Str :=
  if botUsername.isEmpty then message
  else jsTrim (replaceMentionAll botUsername message)

/-- Source: `dmPolicy` field values. -/
inductive DmPolicy where
  | dmOpen | pairing | closed
deriving DecidableEq

/-- Source: `groupPolicy` field values. -/
inductive GroupPolicy where
  | gOpen | allowlist | disabled
deriving DecidableEq

/-- Source: `replyToMode` field values. -/
inductive ReplyToMode where
  | off | thread | alwaysThread
deriving DecidableEq

/-- Source: per-channel entry of `MattermostConfig.channels`; optional
booleans model the optional JS fields (absent = `undefined`). -/
structure ChannelConfig where
  allow : Option Bool := none
  requireMention : Option Bool := none
deriving DecidableEq

/-- Source: the slice of `MattermostConfig` the routing engine and the
orchestrator read.  The `channels` record becomes an association list. -/
structure MattermostConfig where
  dmPolicy : Option DmPolicy := none
  groupPolicy : Option GroupPolicy := none
  channels : Option (List (Str × ChannelConfig)) := none
  replyToMode : Option ReplyToMode := none

/-- Record lookup `config.channels[post.channel_id]`. -/
def lookupChannel (tbl : List (Str × ChannelConfig)) (id : Str) : Option ChannelConfig :=
  (tbl.find? (fun e => e.1 == id)).map (fun e => e.2)

/-- Source: `MattermostPost`; numeric timestamps and props omitted as
they are never read by the core logic. -/
structure MattermostPost where
  id : Str := []
  user_id : Str := []
  channel_id : Str := []
  root_id : Str := []
  message : Str := []
  type : Str := []
deriving DecidableEq

/-- Source: `MattermostChannel`. -/
structure MattermostChannel where
  id : Str := []
  type : Str := []
  display_name : Str := []
  name : Str := []
  team_id : Str := []
deriving DecidableEq

/-- Source: `MattermostUser`. -/
structure MattermostUser where
  id : Str := []
  username : Str := []
deriving DecidableEq

/-- Source: `shouldRespond` (lines 191–225), with the module globals
`config` and `botUserId` passed explicitly.  The JS truthiness checks
become: non-empty `type` tag, `allow === false` as `some false`, truthy
`requireMention` as `some true`. -/
def shouldRespond (config : MattermostConfig) (botUserId : Str)
    (post : MattermostPost) (channelType : Str) (botMentioned : Bool) : Bool :=
  if post.user_id = botUserId then false
  else if post.type ≠ [] then false
  else if isDMChannel channelType then
    match config.dmPolicy.getD DmPolicy.pairing with
    | DmPolicy.closed => false
    | _ => true
  else
    match config.groupPolicy.getD GroupPolicy.gOpen with
    | GroupPolicy.disabled => false
    | GroupPolicy.gOpen => botMentioned
    | GroupPolicy.allowlist =>
      match config.channels with
      | none => false
      | some tbl =>
        match lookupChannel tbl post.channel_id with
        | none => false
        | some cc =>
          if cc.allow = some false then false
          else if cc.requireMention = some true then botMentioned
          else true

/-- Source lines 289–296: the threading directive derived from the
configured reply mode (`post.root_id || post.id` for always-thread). -/
def rootIdFor (replyToMode : ReplyToMode) (post : MattermostPost) : Option Str :=
  match replyToMode with
  | ReplyToMode.alwaysThread =>
      some (if post.root_id.isEmpty then post.id else post.root_id)
  | ReplyToMode.thread =>
      if post.root_id.isEmpty then none else some post.root_id
  | ReplyToMode.off => none

/-- Source line 140: the Mattermost message character limit. -/
def MM_MSG_LIMIT : Nat := 16383

/-- Source line 315: truncate an AI response over the platform limit,
reserving three characters for an ellipsis. -/
def finalizeText (response : Str) : Str :=
  if response.length > MM_MSG_LIMIT
  then response.take (MM_MSG_LIMIT - 3) ++ "...".data
  else response

/-- Source line 301: the placeholder body. -/
def thinkingText : Str := "_Thinking..._".data

/-- Source line 321: the fixed user-visible error notice. -/
def errorNotice : Str := "Error processing your request. Please try again.".data

/-! ### Session orchestrator (src/index.ts, `handlePostedEvent`) -/

/-- A parsed WebSocket event.  `post` models `event.data?.post`: absent,
present-but-unparseable (JSON.parse throws), or a parsed post.
`channel_type` models the optional `event.data?.channel_type` hint. -/
structure MattermostWsEvent where
  event : Str := []
  post : Option (Except Unit MattermostPost) := none
  channel_type : Option Str := none
  seq : Nat := 0

/-- The outbound collaborator calls the orchestrator makes, modelled as
pure oracles: network errors are the `Except.error` case. -/
structure Collaborators where
  getChannel : Str → Except Unit MattermostChannel
  getUser : Str → Except Unit MattermostUser
  createPost : Str → Str → Option Str → Except Unit MattermostPost
  updatePost : Str → Str → Except Unit MattermostPost
  inject : Str → Str → Except Unit Str

/-- One outbound operation performed by the orchestrator, recorded in
call order together with its arguments. -/
inductive Effect where
  | getChannel (channelId : Str)
  | getUser (userId : Str)
  | logMessage (sessionKey : Str) (message : Str) (frm : Str)
  | createPost (channelId : Str) (message : Str) (rootId : Option Str)
  | inject (sessionKey : Str) (message : Str) (frm : Str)
  | updatePost (postId : Str) (message : Str)
deriving DecidableEq

/-- The side-effecting operations among the effects: posting, editing
and AI-processing.  `getChannel`, `getUser` and `logMessage` are
read-only or fire-and-forget context operations. -/
def isResponseEffect : Effect → Bool
  | Effect.createPost _ _ _ => true
  | Effect.inject _ _ _ => true
  | Effect.updatePost _ _ => true
  | _ => false

/-- Source lines 255–269: the non-respond branch — resolve the sender
(best effort) and record the message to the mapped session's history;
a failing user lookup swallows the log step too (both sit in one try
block), and failures are non-critical. -/
def logFlow (co : Collaborators) (post : MattermostPost) (channelType : Str) :
    List Effect :=
  let sessionKey := buildSessionKey post.channel_id (isDMChannel channelType)
  match co.getUser post.user_id with
  | Except.ok user =>
      [Effect.getUser post.user_id, Effect.logMessage sessionKey post.message user.username]
  | Except.error _ => [Effect.getUser post.user_id]

/-- Source lines 271–325: the respond branch — resolve the sender
(falling back to the raw id), strip the mention, post the placeholder
(fatal on failure), inject to the AI, and finalize the placeholder with
the truncated response, or with the fixed error notice if the inject or
the final edit rejected (that last edit's own failure is swallowed). -/
def respondFlow (cfg : MattermostConfig) (botUsername : Str) (co : Collaborators)
    (post : MattermostPost) (channelType : Str) : List Effect :=
  let sessionKey := buildSessionKey post.channel_id (isDMChannel channelType)
  let senderRes : Str × List Effect :=
    match co.getUser post.user_id with
    | Except.ok user => (user.username, [Effect.getUser post.user_id])
    | Except.error _ => (post.user_id, [Effect.getUser post.user_id])
  let senderUsername := senderRes.1
  let messageText := stripMention botUsername post.message
  let rootId := rootIdFor (cfg.replyToMode.getD ReplyToMode.thread) post
  match co.createPost post.channel_id thinkingText rootId with
  | Except.error _ =>
      senderRes.2 ++ [Effect.createPost post.channel_id thinkingText rootId]
  | Except.ok thinkingPost =>
    let eff2 := senderRes.2 ++ [Effect.createPost post.channel_id thinkingText rootId]
    match co.inject sessionKey messageText with
    | Except.ok response =>
      let finalText := finalizeText response
      match co.updatePost thinkingPost.id finalText with
      | Except.ok _ =>
          eff2 ++ [Effect.inject sessionKey messageText senderUsername,
                   Effect.updatePost thinkingPost.id finalText]
      | Except.error _ =>
          eff2 ++ [Effect.inject sessionKey messageText senderUsername,
                   Effect.updatePost thinkingPost.id finalText,
                   Effect.updatePost thinkingPost.id errorNotice]
    | Except.error _ =>
        eff2 ++ [Effect.inject sessionKey messageText senderUsername,
                 Effect.updatePost thinkingPost.id errorNotice]

/-- Source lines 228–326: `handlePostedEvent` with the module globals
passed explicitly.  Returns the outbound operations in call order; it is
a total function because every awaited call in the source sits inside a
try/catch (and `handleWsEvent` adds a final catch), so no exception
escapes the event-processing path. -/
def handlePostedEvent (cfg : MattermostConfig) (botUserId botUsername : Str)
    (co : Collaborators) (event : MattermostWsEvent) : List Effect :=
  match event.post with
  | none => []
  | some (Except.error _) => []
  | some (Except.ok post) =>
    let ctRes : Str × List Effect :=
      match event.channel_type.getD [] with
      | [] =>
        match co.getChannel post.channel_id with
        | Except.ok ch => (ch.type, [Effect.getChannel post.channel_id])
        | Except.error _ => ("O".data, [Effect.getChannel post.channel_id])
      | c :: cs => (c :: cs, [])
    let channelType := ctRes.1
    let botMentioned := computeBotMentioned botUsername post.message
    if shouldRespond cfg botUserId post channelType botMentioned
    then ctRes.2 ++ respondFlow cfg botUsername co post channelType
    else ctRes.2 ++ logFlow co post channelType

/-- Source lines 329–338: the event dispatcher acts only on "posted"
events; its trailing catch swallows any rejection. -/
def handleWsEvent (cfg : MattermostConfig) (botUserId botUsername : Str)
    (co : Collaborators) (event : MattermostWsEvent) : List Effect :=
  if event.event = "posted".data
  then handlePostedEvent cfg botUserId botUsername co event
  else []

/-! ### Transport client (src/mattermost-client.ts) -/

/-- Source line 18. -/
def maxReconnectAttempts : Nat := 10

/-- Source line 19 (milliseconds). -/
def reconnectBaseDelay : Nat := 1000

/-- The WebSocket-lifecycle fields of `MattermostClient`.  Sockets are
identified by a counter so that replacement is observable;
`reconnectTimer` holds the delay of the pending scheduled reconnect. -/
structure ClientState where
  ws : Option Nat := none
  nextSockId : Nat := 0
  reconnectTimer : Option Nat := none
  reconnectAttempts : Nat := 0
  shouldReconnect : Bool := true
deriving DecidableEq

/-- Externally-visible socket and timer operations of the client. -/
inductive WsAction where
  | openSocket (id : Nat)
  | sendAuthChallenge
  | scheduleTimer (delayMs : Nat)
  | cancelTimer
  | closeSocket (id : Nat)
deriving DecidableEq

/-- Environment events driving the client state machine. -/
inductive WsEvt where
  | connectReq
  | disconnectReq
  | sockOpen
  | sockClose
  | sockError
  | timerFire
deriving DecidableEq

/-- Source lines 161–163: `doConnect` unconditionally constructs a new
WebSocket and stores it in `this.ws`. -/
def doConnect (s : ClientState) : ClientState × List WsAction :=
  ({ s with ws := some s.nextSockId, nextSockId := s.nextSockId + 1 },
   [WsAction.openSocket s.nextSockId])

/-- Source lines 156–159: `connectWebSocket` re-arms the reconnect flag
and calls `doConnect`. -/
def connectWebSocket (s : ClientState) : ClientState × List WsAction :=
  doConnect { s with shouldReconnect := true }

/-- Source lines 165–175: the open handler sends the authentication
challenge and resets the attempt counter to zero. -/
def onOpen (s : ClientState) : ClientState × List WsAction :=
  ({ s with reconnectAttempts := 0 }, [WsAction.sendAuthChallenge])

/-- Source lines 199–204: `scheduleReconnect` — no-op at the attempt
cap, otherwise schedule a timer with exponentially-doubled delay and
increment the counter. -/
def scheduleReconnect (s : ClientState) : ClientState × List WsAction :=
  if s.reconnectAttempts ≥ maxReconnectAttempts then (s, [])
  else
    let delay := reconnectBaseDelay * 2 ^ s.reconnectAttempts
    ({ s with reconnectAttempts := s.reconnectAttempts + 1,
              reconnectTimer := some delay },
     [WsAction.scheduleTimer delay])

/-- Source lines 188–192: the close handler reconnects only while the
reconnect flag is armed. -/
def onClose (s : ClientState) : ClientState × List WsAction :=
  if s.shouldReconnect then scheduleReconnect s else (s, [])

/-- Source lines 206–216: `disconnectWebSocket` — clear the flag first,
cancel a pending timer, close the socket if present. -/
def disconnectWebSocket (s : ClientState) : ClientState × List WsAction :=
  let s1 := { s with shouldReconnect := false }
  let timerStep : ClientState × List WsAction :=
    match s1.reconnectTimer with
    | some _ => ({ s1 with reconnectTimer := none }, [WsAction.cancelTimer])
    | none => (s1, [])
  match timerStep.1.ws with
  | some id => ({ timerStep.1 with ws := none }, timerStep.2 ++ [WsAction.closeSocket id])
  | none => (timerStep.1, timerStep.2)

/-- The client's reaction to one environment event.  A timer can fire
only while it is pending (`clearTimeout` guarantees a cancelled timer
never fires); the error handler is a no-op (the close event follows). -/
def step (s : ClientState) : WsEvt → ClientState × List WsAction
  | WsEvt.connectReq => connectWebSocket s
  | WsEvt.disconnectReq => disconnectWebSocket s
  | WsEvt.sockOpen => onOpen s
  | WsEvt.sockClose => onClose s
  | WsEvt.sockError => (s, [])
  | WsEvt.timerFire =>
      match s.reconnectTimer with
      | some _ => doConnect { s with reconnectTimer := none }
      | none => (s, [])

/-- Run a sequence of environment events, accumulating all actions. -/
def run (s : ClientState) : List WsEvt → ClientState × List WsAction
  | [] => (s, [])
  | e :: es =>
    let p := step s e
    let q := run p.1 es
    (q.1, p.2 ++ q.2)

/-- The state after `n` consecutive unexpected socket closes. -/
def closesIter : Nat → ClientState → ClientState
  | 0, s => s
  | n + 1, s => (step (closesIter n s) WsEvt.sockClose).1

/-! ### Listener dispatch (src/mattermost-client.ts, lines 177–186) -/

/-- The for-loop over `wsListeners`: invoke handlers in order, recording
the index of each handler that gets invoked; a throwing handler is
itself invoked but aborts the loop (its exception propagates out of the
`for` into the surrounding catch). -/
def dispatchListeners {ε : Type} (e : MattermostWsEvent) :
    List (MattermostWsEvent → Except ε Unit) → Nat → List Nat
  | [], _ => []
  | h :: rest, i =>
    match h e with
    | Except.ok _ => i :: dispatchListeners e rest (i + 1)
    | Except.error _ => [i]

/-- Source lines 177–186: the message handler — parse the raw frame,
deliver to listeners; the catch swallows both parse failures and
listener exceptions.  Returns the indices of invoked listeners. -/
def onMessage {ε : Type} (jsonParse : Str → Except ε MattermostWsEvent)
    (handlers : List (MattermostWsEvent → Except ε Unit)) (raw : Str) : List Nat :=
  match jsonParse raw with
  | Except.error _ => []
  | Except.ok e => dispatchListeners e handlers 0

/-! ### Concrete fixtures used by counterexamples and witnesses -/

/-- Collaborators whose lookups and post creation succeed and whose
AI-inject call fails. -/
def coEx : Collaborators where
  getChannel := fun i => Except.ok { id := i, type := "O".data }
  getUser := fun i => Except.ok { id := i, username := "alice".data }
  createPost := fun cid msg _ =>
    Except.ok { id := "tp1".data, channel_id := cid, message := msg }
  updatePost := fun pid msg => Except.ok { id := pid, message := msg }
  inject := fun _ _ => Except.error ()

/-- A posted event authored by the bot itself in an open channel. -/
def evSelf : MattermostWsEvent where
  event := "posted".data
  post := some (Except.ok
    { id := "m1".data, user_id := "bot".data, channel_id := "c1".data,
      message := "hi".data })
  channel_type := some "O".data

/-- A posted event from a user in a direct-message channel. -/
def evDm : MattermostWsEvent where
  event := "posted".data
  post := some (Except.ok
    { id := "m2".data, user_id := "u7".data, channel_id := "d1".data,
      message := "hello".data })
  channel_type := some "D".data

/-- A minimal parsed event, used to exercise listener dispatch. -/
def evPosted : MattermostWsEvent where
  event := "posted".data

end WoprMattermost

namespace WoprMattermost

/-! ### Theorems -/

/-- C8: `buildSessionKey` is a pure injective function of
(channelId, isDM): equal pairs yield equal keys; distinct channel ids
yield distinct keys under either flag; and a DM-form key never equals a
non-DM-form key, for any pair of channel ids. -/
theorem buildSessionKey_injective :
    (∀ (a b : Str) (f g : Bool), a = b → f = g →
        buildSessionKey a f = buildSessionKey b g) ∧
    (∀ (a b : Str) (f : Bool), buildSessionKey a f = buildSessionKey b f → a = b) ∧
    (∀ (a b : Str), buildSessionKey a true ≠ buildSessionKey b false) := by
  refine ⟨?_, ?_, ?_⟩
  · intro a b f g ha hf; rw [ha, hf]
  · intro a b f h
    cases f <;> simp only [buildSessionKey, if_true, if_false, Bool.false_eq_true,
      reduceIte] at h <;> exact List.append_cancel_left h
  · intro a b h
    simp only [buildSessionKey, if_true, if_false, Bool.false_eq_true, reduceIte] at h
    have e1 : ("mattermost-dm-".data ++ a)[11]? = some 'd' := by
      rw [List.getElem?_append, if_pos (by decide)]; decide
    have e2 : ("mattermost-channel-".data ++ b)[11]? = some 'c' := by
      rw [List.getElem?_append, if_pos (by decide)]; decide
    rw [h, e2] at e1
    exact absurd e1 (by decide)

/-- C8 witness: the theorem applied at concrete channel ids. -/
theorem buildSessionKey_injective_witness :
    (buildSessionKey "c1".data true = buildSessionKey "c1".data true ∧
       "c1".data = "c1".data) ∧
    buildSessionKey "c1".data true ≠ buildSessionKey "c2".data false :=
  ⟨⟨rfl, buildSessionKey_injective.2.1 "c1".data "c1".data true rfl⟩,
   buildSessionKey_injective.2.2 "c1".data "c2".data⟩

/-- C9: a response strictly longer than the platform limit is finalized
to exactly the limit's length and ends in the three-character ellipsis;
a response within the limit is left unchanged. -/
theorem finalizeText_truncation (r : Str) :
    (r.length > MM_MSG_LIMIT →
       (finalizeText r).length = MM_MSG_LIMIT ∧ "...".data <:+ finalizeText r) ∧
    (r.length ≤ MM_MSG_LIMIT → finalizeText r = r) := by
  constructor
  · intro h
    have hf : finalizeText r = r.take (MM_MSG_LIMIT - 3) ++ "...".data := by
      rw [finalizeText, if_pos h]
    constructor
    · rw [hf, List.length_append, List.length_take]
      have hm : min (MM_MSG_LIMIT - 3) r.length = MM_MSG_LIMIT - 3 :=
        Nat.min_eq_left (by simp [MM_MSG_LIMIT] at h ⊢; omega)
      rw [hm]
      simp [MM_MSG_LIMIT]
    · rw [hf]; exact List.suffix_append _ _
  · intro h
    rw [finalizeText, if_neg (by omega)]

/-- C9 witness: a 16384-character response is truncated to 16383
characters ending in the ellipsis. -/
theorem finalizeText_truncation_witness :
    (List.replicate 16384 'a').length > MM_MSG_LIMIT ∧
    ((finalizeText (List.replicate 16384 'a')).length = MM_MSG_LIMIT ∧
     "...".data <:+ finalizeText (List.replicate 16384 'a')) := by
  have h : (List.replicate 16384 'a').length > MM_MSG_LIMIT := by
    simp only [List.length_replicate, MM_MSG_LIMIT]; omega
  exact ⟨h, (finalizeText_truncation _).1 h⟩

/-- C6: under group policy allowlist, for a broadcast-like channel
message (non-DM, sender distinct from the bot, empty type tag): a
wholly absent per-channel table denies every channel; an absent entry or
an explicit allow=false denies; an entry with requireMention=true makes
the verdict equal the mention flag; any other entry admits. -/
theorem shouldRespond_allowlist (cfg : MattermostConfig) (botUserId : Str)
    (post : MattermostPost) (channelType : Str) (botMentioned : Bool)
    (hpolicy : cfg.groupPolicy = some GroupPolicy.allowlist)
    (hdm : isDMChannel channelType = false)
    (hsender : post.user_id ≠ botUserId)
    (htype : post.type = []) :
    (cfg.channels = none →
       shouldRespond cfg botUserId post channelType botMentioned = false) ∧
    (∀ tbl, cfg.channels = some tbl →
       lookupChannel tbl post.channel_id = none →
       shouldRespond cfg botUserId post channelType botMentioned = false) ∧
    (∀ tbl cc, cfg.channels = some tbl →
       lookupChannel tbl post.channel_id = some cc → cc.allow = some false →
       shouldRespond cfg botUserId post channelType botMentioned = false) ∧
    (∀ tbl cc, cfg.channels = some tbl →
       lookupChannel tbl post.channel_id = some cc → cc.allow ≠ some false →
       cc.requireMention = some true →
       shouldRespond cfg botUserId post channelType botMentioned = botMentioned) ∧
    (∀ tbl cc, cfg.channels = some tbl →
       lookupChannel tbl post.channel_id = some cc → cc.allow ≠ some false →
       cc.requireMention ≠ some true →
       shouldRespond cfg botUserId post channelType botMentioned = true) := by
  have hbase : shouldRespond cfg botUserId post channelType botMentioned =
      (match cfg.channels with
       | none => false
       | some tbl =>
         match lookupChannel tbl post.channel_id with
         | none => false
         | some cc =>
           if cc.allow = some false then false
           else if cc.requireMention = some true then botMentioned
           else true) := by
    simp [shouldRespond, hsender, htype, hdm, hpolicy]
  refine ⟨?_, ?_, ?_, ?_, ?_⟩
  · intro hch; rw [hbase, hch]
  · intro tbl hch hlk; rw [hbase, hch]; simp [hlk]
  · intro tbl cc hch hlk hal; rw [hbase, hch]; simp [hlk, hal]
  · intro tbl cc hch hlk hal hrm; rw [hbase, hch]; simp [hlk, hal, hrm]
  · intro tbl cc hch hlk hal hrm; rw [hbase, hch]; simp [hlk, hal, hrm]

/-- C6 witness: an allowlisted channel entry without requireMention
admits a non-mentioning message. -/
theorem shouldRespond_allowlist_witness :
    isDMChannel "O".data = false ∧
    shouldRespond
      { groupPolicy := some GroupPolicy.allowlist,
        channels := some [("c1".data,
          { allow := some true, requireMention := none })] }
      "bot".data { user_id := "u1".data, channel_id := "c1".data }
      "O".data false = true := by
  refine ⟨by decide, ?_⟩
  exact (shouldRespond_allowlist _ _ _ _ _ rfl (by decide) (by decide) rfl).2.2.2.2
    [("c1".data, { allow := some true, requireMention := none })]
    { allow := some true, requireMention := none } rfl (by decide)
    (by decide) (by decide)

/-- C10: with an uninitialized (empty) bot username, mention detection
returns false for every message body — the literal-substring rule is
not applied — the body is never mention-stripped, and the admitted path
passes the body to the AI-inject collaborator verbatim. -/
theorem emptyUsername_behavior :
    (∀ msg : Str, computeBotMentioned [] msg = false) ∧
    (∀ msg : Str, stripMention [] msg = msg) ∧
    (∀ (cfg : MattermostConfig) (botUserId : Str) (co : Collaborators)
        (event : MattermostWsEvent) (post : MattermostPost) (c : Char) (cs : Str)
        (u : MattermostUser) (tp : MattermostPost),
        event.post = some (Except.ok post) →
        event.channel_type = some (c :: cs) →
        shouldRespond cfg botUserId post (c :: cs) false = true →
        co.getUser post.user_id = Except.ok u →
        co.createPost post.channel_id thinkingText
          (rootIdFor (cfg.replyToMode.getD ReplyToMode.thread) post) = Except.ok tp →
        Effect.inject (buildSessionKey post.channel_id (isDMChannel (c :: cs)))
          post.message u.username ∈
          handlePostedEvent cfg botUserId [] co event) := by
  refine ⟨?_, ?_, ?_⟩
  · intro msg; simp [computeBotMentioned]
  · intro msg; simp [stripMention]
  · intro cfg botUserId co event post c cs u tp hpost hct hsr hu hcreate
    have hmention : computeBotMentioned [] post.message = false := by
      simp [computeBotMentioned]
    have hstrip : stripMention [] post.message = post.message := by
      simp [stripMention]
    simp only [handlePostedEvent, hpost, hct, Option.getD_some, hmention, hsr,
      if_true, respondFlow, hu, hcreate, hstrip]
    rcases hinj : co.inject (buildSessionKey post.channel_id (isDMChannel (c :: cs)))
        post.message with er | resp
    · simp [hinj]
    · rcases hup : co.updatePost tp.id (finalizeText resp) with er2 | p2
      · simp [hinj, hup]
      · simp [hinj, hup]

/-- C10 witness: a DM event handled with the empty bot username reaches
the AI-inject call with the unmodified body. -/
theorem emptyUsername_behavior_witness :
    shouldRespond {} "bot".data
      { id := "m2".data, user_id := "u7".data, channel_id := "d1".data,
        message := "hello".data } ('D' :: []) false = true ∧
    Effect.inject (buildSessionKey "d1".data (isDMChannel ('D' :: [])))
      "hello".data "alice".data ∈
      handlePostedEvent {} "bot".data [] coEx evDm := by
  refine ⟨by decide, ?_⟩
  exact emptyUsername_behavior.2.2 {} "bot".data coEx evDm
    { id := "m2".data, user_id := "u7".data, channel_id := "d1".data,
      message := "hello".data } 'D' []
    { id := "u7".data, username := "alice".data }
    { id := "tp1".data, channel_id := "d1".data, message := thinkingText }
    rfl rfl (by decide) rfl rfl

/-- C7: for an admitted event whose placeholder post succeeded, an
AI-inject failure results in the placeholder being edited to the fixed
error notice, and that is the only edit ever applied to the placeholder
on this path, so it cannot be left showing the thinking text; the
conclusion holds for every `updatePost` oracle, i.e. even when the
error-notice edit itself fails, and `handlePostedEvent` stays total —
mirroring the source's try/catch coverage, no exception escapes. -/
theorem injectFailure_editsPlaceholder (cfg : MattermostConfig)
    (botUserId botUsername : Str) (co : Collaborators)
    (event : MattermostWsEvent) (post : MattermostPost) (c : Char) (cs : Str)
    (tp : MattermostPost) (er : Unit)
    (hpost : event.post = some (Except.ok post))
    (hct : event.channel_type = some (c :: cs))
    (hsr : shouldRespond cfg botUserId post (c :: cs)
        (computeBotMentioned botUsername post.message) = true)
    (hcreate : co.createPost post.channel_id thinkingText
        (rootIdFor (cfg.replyToMode.getD ReplyToMode.thread) post) = Except.ok tp)
    (hinj : co.inject (buildSessionKey post.channel_id (isDMChannel (c :: cs)))
        (stripMention botUsername post.message) = Except.error er) :
    Effect.updatePost tp.id errorNotice ∈
      handlePostedEvent cfg botUserId botUsername co event ∧
    (∀ t, Effect.updatePost tp.id t ∈
        handlePostedEvent cfg botUserId botUsername co event → t = errorNotice) := by
  rcases hu : co.getUser post.user_id with e1 | u <;>
  · simp only [handlePostedEvent, hpost, hct, Option.getD_some, hsr, if_true,
      respondFlow, hu, hcreate, hinj]
    refine ⟨by simp, ?_⟩
    intro t ht
    simp at ht
    exact ht

/-- C7 witness: the theorem applied to a concrete DM event with a
failing AI-inject oracle. -/
theorem injectFailure_editsPlaceholder_witness :
    (coEx.inject (buildSessionKey "d1".data (isDMChannel ('D' :: [])))
        (stripMention "wopr".data "hello".data) = Except.error ()) ∧
    Effect.updatePost "tp1".data errorNotice ∈
      handlePostedEvent {} "bot".data "wopr".data coEx evDm := by
  refine ⟨rfl, ?_⟩
  exact (injectFailure_editsPlaceholder {} "bot".data "wopr".data coEx evDm
    { id := "m2".data, user_id := "u7".data, channel_id := "d1".data,
      message := "hello".data } 'D' []
    { id := "tp1".data, channel_id := "d1".data, message := thinkingText } ()
    rfl rfl (by decide) rfl rfl).1

/-- Effects the non-respond branch can emit are never response side
effects (no post, no AI call, no edit). -/
theorem logFlow_effects (co : Collaborators) (post : MattermostPost) (ct : Str) :
    ∀ e ∈ logFlow co post ct, isResponseEffect e = false := by
  intro e he
  simp only [logFlow] at he
  rcases hu : co.getUser post.user_id with e2 | u <;> rw [hu] at he <;> simp at he
  · subst he; rfl
  · rcases he with he | he <;> subst he <;> rfl

/-- C1 (amended): a post authored by the bot itself is never admitted —
the verdict is non-respond regardless of every other field — and the
handler performs no response side effects for it (no placeholder, no
AI-inject, no edit); the non-respond path does, however, record the
message to session history when the sender lookup succeeds, so the
bot's own output is logged, not silently dropped. -/
theorem selfPost_ignored (cfg : MattermostConfig) (botUserId botUsername : Str)
    (co : Collaborators) (event : MattermostWsEvent) (post : MattermostPost)
    (hpost : event.post = some (Except.ok post))
    (hself : post.user_id = botUserId) :
    (∀ (channelType : Str) (m : Bool),
        shouldRespond cfg botUserId post channelType m = false) ∧
    (∀ e ∈ handlePostedEvent cfg botUserId botUsername co event,
        isResponseEffect e = false) ∧
    (∀ (c : Char) (cs : Str) (u : MattermostUser),
        event.channel_type = some (c :: cs) →
        co.getUser post.user_id = Except.ok u →
        Effect.logMessage (buildSessionKey post.channel_id (isDMChannel (c :: cs)))
          post.message u.username ∈
          handlePostedEvent cfg botUserId botUsername co event) := by
  have hsr : ∀ (ct : Str) (m : Bool), shouldRespond cfg botUserId post ct m = false := by
    intro ct m; simp [shouldRespond, hself]
  refine ⟨hsr, ?_, ?_⟩
  · intro e he
    simp only [handlePostedEvent, hpost, hsr, Bool.false_eq_true, reduceIte] at he
    rcases hcty : event.channel_type with _ | ct
    · rw [hcty] at he
      simp only [Option.getD_none] at he
      rcases hgc : co.getChannel post.channel_id with e1 | ch <;> rw [hgc] at he <;>
        simp only [List.mem_append] at he <;>
        rcases he with h | h
      · simp at h; subst h; rfl
      · exact logFlow_effects co post _ e h
      · simp at h; subst h; rfl
      · exact logFlow_effects co post _ e h
    · rw [hcty] at he
      simp only [Option.getD_some] at he
      rcases ct with _ | ⟨c, cs⟩
      · rcases hgc : co.getChannel post.channel_id with e1 | ch <;> rw [hgc] at he <;>
          simp only [List.mem_append] at he <;>
          rcases he with h | h
        · simp at h; subst h; rfl
        · exact logFlow_effects co post _ e h
        · simp at h; subst h; rfl
        · exact logFlow_effects co post _ e h
      · simp only [List.nil_append] at he
        exact logFlow_effects co post _ e he
  · intro c cs u hct hu
    simp only [handlePostedEvent, hpost, hct, Option.getD_some, hsr,
      Bool.false_eq_true, reduceIte, logFlow, hu]
    simp

/-- C1 witness: the amended theorem applied to a concrete self-authored
event. -/
theorem selfPost_ignored_witness :
    (evSelf.post = some (Except.ok
      { id := "m1".data, user_id := "bot".data, channel_id := "c1".data,
        message := "hi".data })) ∧
    (∀ e ∈ handlePostedEvent {} "bot".data "wopr-bot".data coEx evSelf,
        isResponseEffect e = false) := by
  refine ⟨rfl, ?_⟩
  exact (selfPost_ignored {} "bot".data "wopr-bot".data coEx evSelf
    { id := "m1".data, user_id := "bot".data, channel_id := "c1".data,
      message := "hi".data } rfl rfl).2.1

/-- C1 counterexample: a post authored by the bot itself is classified
as non-respond, yet the handler records it to session history — the
claimed "nothing recorded, never logged" behavior fails on the code. -/
theorem selfPost_logged_cx :
    shouldRespond {} "bot".data
      { id := "m1".data, user_id := "bot".data, channel_id := "c1".data,
        message := "hi".data } "O".data false = false ∧
    Effect.logMessage (buildSessionKey "c1".data false) "hi".data "alice".data ∈
      handlePostedEvent {} "bot".data "wopr-bot".data coEx evSelf := by
  decide

/-- C3 (amended): calling connect() while already connected re-arms the
reconnect flag, but it is not a no-op at the socket level — it
unconditionally opens a fresh socket and replaces the stored socket
handle with it. -/
theorem connect_rearms_and_replaces (s : ClientState) :
    (connectWebSocket s).1.shouldReconnect = true ∧
    (connectWebSocket s).2 = [WsAction.openSocket s.nextSockId] ∧
    (connectWebSocket s).1.ws = some s.nextSockId ∧
    (s.ws ≠ some s.nextSockId → (connectWebSocket s).1.ws ≠ s.ws) := by
  refine ⟨rfl, rfl, rfl, ?_⟩
  intro h hc
  exact h hc.symm

/-- C3 witness: the amended theorem applied to the state reached by one
connect() call. -/
theorem connect_rearms_and_replaces_witness :
    ((connectWebSocket ({} : ClientState)).1.ws
        ≠ some (connectWebSocket ({} : ClientState)).1.nextSockId) ∧
    (connectWebSocket (connectWebSocket ({} : ClientState)).1).1.ws
        ≠ (connectWebSocket ({} : ClientState)).1.ws := by
  refine ⟨by decide, ?_⟩
  exact (connect_rearms_and_replaces (connectWebSocket {}).1).2.2.2 (by decide)

/-- C3 counterexample: connect() while connected opens a second socket
and replaces the stored handle, so it is not idempotent at the socket
level. -/
theorem connect_not_idempotent_cx :
    (connectWebSocket ({} : ClientState)).1.ws = some 0 ∧
    (connectWebSocket (connectWebSocket ({} : ClientState)).1).2
        = [WsAction.openSocket 1] ∧
    (connectWebSocket (connectWebSocket ({} : ClientState)).1).1.ws
        ≠ (connectWebSocket ({} : ClientState)).1.ws := by
  decide

/-- A close below the attempt cap schedules one reconnect with the
exponential delay and increments the counter. -/
theorem step_close_low (t : ClientState) (h1 : t.shouldReconnect = true)
    (h2 : t.reconnectAttempts < maxReconnectAttempts) :
    (step t WsEvt.sockClose).1.reconnectAttempts = t.reconnectAttempts + 1 ∧
    (step t WsEvt.sockClose).1.shouldReconnect = true ∧
    (step t WsEvt.sockClose).2
      = [WsAction.scheduleTimer (reconnectBaseDelay * 2 ^ t.reconnectAttempts)] := by
  simp [step, onClose, scheduleReconnect, h1, Nat.not_le.mpr h2]

/-- A close at the attempt cap does nothing. -/
theorem step_close_cap (t : ClientState) (h1 : t.shouldReconnect = true)
    (h2 : t.reconnectAttempts ≥ maxReconnectAttempts) :
    step t WsEvt.sockClose = (t, []) := by
  simp [step, onClose, scheduleReconnect, h1, h2]

/-- After n consecutive unexpected closes from a fresh state, the flag
stays armed and the counter sits at min n 10. -/
theorem closesIter_invariant (s : ClientState) (hsr : s.shouldReconnect = true)
    (h0 : s.reconnectAttempts = 0) (n : Nat) :
    (closesIter n s).shouldReconnect = true ∧
    (closesIter n s).reconnectAttempts = min n maxReconnectAttempts := by
  induction n with
  | zero => exact ⟨hsr, by simp [closesIter, h0]⟩
  | succ n ih =>
    obtain ⟨ih1, ih2⟩ := ih
    by_cases hc : (closesIter n s).reconnectAttempts < maxReconnectAttempts
    · obtain ⟨ha, hb, _⟩ := step_close_low _ ih1 hc
      refine ⟨by simpa [closesIter] using hb, ?_⟩
      simp only [closesIter]
      rw [ha, ih2]
      rw [ih2] at hc
      omega
    · push_neg at hc
      have hstep := step_close_cap _ ih1 hc
      refine ⟨?_, ?_⟩
      · simp only [closesIter, hstep]; exact ih1
      · simp only [closesIter, hstep]
        rw [ih2] at hc ⊢
        omega

/-- C4: from a freshly-opened connection (counter zero, flag armed),
the (n+1)th consecutive unexpected close schedules a reconnect with
delay base·2^n for n below the cap; the close after the 10th failed
attempt schedules nothing; a close below the cap strictly increments
the counter (scheduling never resets it), a timer firing leaves it
unchanged, and only a successful socket open resets it to zero. -/
theorem reconnect_backoff (s : ClientState) (hsr : s.shouldReconnect = true)
    (h0 : s.reconnectAttempts = 0) :
    (∀ n, n < maxReconnectAttempts →
       (step (closesIter n s) WsEvt.sockClose).2
         = [WsAction.scheduleTimer (reconnectBaseDelay * 2 ^ n)]) ∧
    (step (closesIter maxReconnectAttempts s) WsEvt.sockClose).2 = [] ∧
    (∀ t : ClientState, t.shouldReconnect = true →
       t.reconnectAttempts < maxReconnectAttempts →
       (step t WsEvt.sockClose).1.reconnectAttempts = t.reconnectAttempts + 1) ∧
    (∀ t : ClientState, (step t WsEvt.timerFire).1.reconnectAttempts
        = t.reconnectAttempts) ∧
    (∀ t : ClientState, (step t WsEvt.sockOpen).1.reconnectAttempts = 0) := by
  refine ⟨?_, ?_, ?_, ?_, ?_⟩
  · intro n hn
    obtain ⟨h1, h2⟩ := closesIter_invariant s hsr h0 n
    have hlt : (closesIter n s).reconnectAttempts < maxReconnectAttempts := by
      rw [h2]; omega
    rw [(step_close_low _ h1 hlt).2.2, h2]
    have hm : min n maxReconnectAttempts = n := by omega
    rw [hm]
  · obtain ⟨h1, h2⟩ := closesIter_invariant s hsr h0 maxReconnectAttempts
    have hge : (closesIter maxReconnectAttempts s).reconnectAttempts
        ≥ maxReconnectAttempts := by rw [h2]; omega
    rw [step_close_cap _ h1 hge]
  · intro t h1 h2
    exact (step_close_low t h1 h2).1
  · intro t
    rcases ht : t.reconnectTimer with _ | d <;> simp [step, doConnect, ht]
  · intro t
    simp [step, onOpen]

/-- C4 witness: the theorem applied at the initial state; the fourth
consecutive close schedules the fourth attempt with delay 1000·2³. -/
theorem reconnect_backoff_witness :
    (({} : ClientState).shouldReconnect = true) ∧
    (({} : ClientState).reconnectAttempts = 0) ∧
    (step (closesIter 3 ({} : ClientState)) WsEvt.sockClose).2
      = [WsAction.scheduleTimer (reconnectBaseDelay * 2 ^ 3)] := by
  refine ⟨rfl, rfl, ?_⟩
  exact (reconnect_backoff {} rfl rfl).1 3 (by decide)

/-- With the reconnect flag cleared and no pending timer, no event
other than an explicit connect request opens a socket or schedules a
reconnect, and the dormant shape is preserved. -/
theorem step_no_reconnect (t : ClientState) (h1 : t.shouldReconnect = false)
    (h2 : t.reconnectTimer = none) (e : WsEvt) (he : e ≠ WsEvt.connectReq) :
    (step t e).1.shouldReconnect = false ∧ (step t e).1.reconnectTimer = none ∧
    ∀ a ∈ (step t e).2, (∀ i, a ≠ WsAction.openSocket i) ∧
      (∀ d, a ≠ WsAction.scheduleTimer d) := by
  cases e with
  | connectReq => exact absurd rfl he
  | disconnectReq =>
    rcases hw : t.ws with _ | id <;>
      simp [step, disconnectWebSocket, h1, h2, hw]
  | sockOpen => simp [step, onOpen, h1, h2]
  | sockClose => simp [step, onClose, h1, h2]
  | sockError => simp [step, h1, h2]
  | timerFire => simp [step, h1, h2]

/-- Running any connect-free event sequence from a dormant state emits
no socket opens and no reconnect scheduling. -/
theorem run_no_reconnect (evs : List WsEvt) : ∀ (t : ClientState),
    t.shouldReconnect = false → t.reconnectTimer = none →
    WsEvt.connectReq ∉ evs →
    ∀ a ∈ (run t evs).2, (∀ i, a ≠ WsAction.openSocket i) ∧
      (∀ d, a ≠ WsAction.scheduleTimer d) := by
  induction evs with
  | nil => intro t h1 h2 hm a ha; simp [run] at ha
  | cons e es ih =>
    intro t h1 h2 hm a ha
    have hne : e ≠ WsEvt.connectReq := by
      intro h; exact hm (by simp [h])
    obtain ⟨p1, p2, p3⟩ := step_no_reconnect t h1 h2 e hne
    rw [show (run t (e :: es)).2 = (step t e).2 ++ (run (step t e).1 es).2 from rfl]
      at ha
    rcases List.mem_append.mp ha with h | h
    · exact p3 a h
    · exact ih (step t e).1 p1 p2 (fun hc => hm (List.mem_cons_of_mem _ hc)) a h

/-- C5: disconnect() clears the reconnect flag, cancels any pending
reconnect timer, and closes and clears the socket; afterwards no event
sequence free of a new connect() request ever opens a socket or
schedules a reconnect (covering both a pending timer and the close
event fired by the explicit close); and calling it while already
disconnected is a no-op producing no actions and no error. -/
theorem disconnect_guarantees (s : ClientState) :
    (disconnectWebSocket s).1.shouldReconnect = false ∧
    (disconnectWebSocket s).1.reconnectTimer = none ∧
    (disconnectWebSocket s).1.ws = none ∧
    (∀ evs : List WsEvt, WsEvt.connectReq ∉ evs →
       ∀ a ∈ (run (disconnectWebSocket s).1 evs).2,
         (∀ i, a ≠ WsAction.openSocket i) ∧ (∀ d, a ≠ WsAction.scheduleTimer d)) ∧
    (s.shouldReconnect = false → s.reconnectTimer = none → s.ws = none →
       disconnectWebSocket s = (s, [])) := by
  have h1 : (disconnectWebSocket s).1.shouldReconnect = false := by
    rcases ht : s.reconnectTimer with _ | d <;> rcases hw : s.ws with _ | id <;>
      simp [disconnectWebSocket, ht, hw]
  have h2 : (disconnectWebSocket s).1.reconnectTimer = none := by
    rcases ht : s.reconnectTimer with _ | d <;> rcases hw : s.ws with _ | id <;>
      simp [disconnectWebSocket, ht, hw]
  have h3 : (disconnectWebSocket s).1.ws = none := by
    rcases ht : s.reconnectTimer with _ | d <;> rcases hw : s.ws with _ | id <;>
      simp [disconnectWebSocket, ht, hw]
  refine ⟨h1, h2, h3, ?_, ?_⟩
  · intro evs hm a ha
    exact run_no_reconnect evs _ h1 h2 hm a ha
  · intro ha hb hc
    cases s
    simp_all [disconnectWebSocket]

/-- C5 witness: after disconnecting a connected client, a close, a
timer expiry and another close produce no opens and no scheduling. -/
theorem disconnect_guarantees_witness :
    (WsEvt.connectReq ∉ [WsEvt.sockClose, WsEvt.timerFire, WsEvt.sockClose]) ∧
    (∀ a ∈ (run (disconnectWebSocket (connectWebSocket ({} : ClientState)).1).1
        [WsEvt.sockClose, WsEvt.timerFire, WsEvt.sockClose]).2,
      (∀ i, a ≠ WsAction.openSocket i) ∧ (∀ d, a ≠ WsAction.scheduleTimer d)) := by
  refine ⟨by decide, ?_⟩
  exact (disconnect_guarantees (connectWebSocket {}).1).2.2.2.1 _ (by decide)

/-- When every handler succeeds on the event, the dispatch loop invokes
them all, in registration order. -/
theorem dispatchListeners_all_ok {ε : Type} (e : MattermostWsEvent) :
    ∀ (hs : List (MattermostWsEvent → Except ε Unit)) (i : Nat),
    (∀ h ∈ hs, h e = Except.ok ()) →
    dispatchListeners e hs i = List.range' i hs.length := by
  intro hs
  induction hs with
  | nil => intro i _; simp [dispatchListeners, List.range']
  | cons h rest ih =>
    intro i hall
    have hh : h e = Except.ok () := hall h (List.mem_cons_self h rest)
    simp only [dispatchListeners, hh, List.length_cons, List.range']
    exact congrArg (i :: ·) (ih (i + 1) fun g hg => hall g (List.mem_cons_of_mem _ hg))

/-- When handler j is the first to throw, the dispatch loop invokes
exactly handlers 0..j and stops. -/
theorem dispatchListeners_first_err {ε : Type} (e : MattermostWsEvent) :
    ∀ (hs : List (MattermostWsEvent → Except ε Unit)) (j i : Nat)
      (hj : MattermostWsEvent → Except ε Unit),
    hs[j]? = some hj → hj e ≠ Except.ok () →
    (∀ (k : Nat) (hk : MattermostWsEvent → Except ε Unit), k < j →
       hs[k]? = some hk → hk e = Except.ok ()) →
    dispatchListeners e hs i = List.range' i (j + 1) := by
  intro hs
  induction hs with
  | nil => intro j i hj hget _ _; simp at hget
  | cons h rest ih =>
    intro j i hj hget herr hpre
    cases j with
    | zero =>
      rw [List.getElem?_cons_zero] at hget
      have hh : h = hj := Option.some.inj hget
      rcases hhe : hj e with er | v
      · simp [dispatchListeners, hh, hhe, List.range']
      · cases v; exact absurd hhe herr
    | succ j2 =>
      have hh : h e = Except.ok () := hpre 0 h (Nat.succ_pos _) (by simp)
      simp only [dispatchListeners, hh, List.range']
      exact congrArg (i :: ·) (ih j2 (i + 1) hj (by simpa using hget) herr
        (fun k hk hkj hkget => hpre (k + 1) hk (by omega) (by simpa using hkget)))

/-- C2 (amended): for a successfully parsed frame, listeners are
invoked in registration order up to and including the first listener
that throws: when no listener throws, every registered listener
receives the event; when listener j is the first to throw, listeners
0..j are invoked and the listeners after j do not receive that event —
the exception is swallowed by the surrounding catch (the dispatch
returns normally), but sibling delivery for that event is cut short. -/
theorem listener_dispatch {ε : Type} (jsonParse : Str → Except ε MattermostWsEvent)
    (handlers : List (MattermostWsEvent → Except ε Unit)) (raw : Str)
    (e : MattermostWsEvent) (hp : jsonParse raw = Except.ok e) :
    ((∀ h ∈ handlers, h e = Except.ok ()) →
       onMessage jsonParse handlers raw = List.range handlers.length) ∧
    (∀ (j : Nat) (hj : MattermostWsEvent → Except ε Unit),
       handlers[j]? = some hj → hj e ≠ Except.ok () →
       (∀ (k : Nat) (hk : MattermostWsEvent → Except ε Unit), k < j →
          handlers[k]? = some hk → hk e = Except.ok ()) →
       onMessage jsonParse handlers raw = List.range (j + 1)) := by
  constructor
  · intro hall
    simp only [onMessage, hp]
    rw [List.range_eq_range']
    exact dispatchListeners_all_ok e handlers 0 hall
  · intro j hj hget herr hpre
    simp only [onMessage, hp]
    rw [List.range_eq_range']
    exact dispatchListeners_first_err e handlers j 0 hj hget herr hpre

/-- C2 witness: with two non-throwing listeners, both are invoked. -/
theorem listener_dispatch_witness :
    ((fun _ => (Except.ok evPosted : Except Unit MattermostWsEvent)) "x".data
        = Except.ok evPosted) ∧
    onMessage (fun _ => (Except.ok evPosted : Except Unit MattermostWsEvent))
      [fun _ => Except.ok (), fun _ => Except.ok ()] "x".data = List.range 2 := by
  refine ⟨rfl, ?_⟩
  refine (listener_dispatch _ _ _ _ rfl).1 ?_
  intro h hh
  simp only [List.mem_cons, List.not_mem_nil, or_false] at hh
  rcases hh with rfl | rfl <;> rfl

/-- C2 counterexample: with two listeners where the first throws, the
loop invokes only listener 0 — the sibling listener 1 never receives
the successfully parsed event. -/
theorem listener_throw_blocks_sibling_cx :
    onMessage (fun _ => (Except.ok evPosted : Except Unit MattermostWsEvent))
      [fun _ => Except.error (), fun _ => Except.ok ()] "x".data = [0] ∧
    1 ∉ onMessage (fun _ => (Except.ok evPosted : Except Unit MattermostWsEvent))
      [fun _ => Except.error (), fun _ => Except.ok ()] "x".data := by
  decide

end WoprMattermost
